import Mathlib

/-!
Shallow embedding of the CLogger crate (src/lib.rs): a process-wide logging
facade built on the `fern`, `log`, `colored` and `chrono` crates.  The
embedding models the global initialization guarded by `std::sync::Once`,
the fern `Dispatch` with its format closure, level filter and two chained
sinks (stdout and an append-mode log file), and the four emission macros
`c_log!`, `c_warn!`, `c_error!`, `c_debug!`.
-/

namespace CLogger

/-! ### Model of the `colored` crate

`colored` renders a colored string as `ESC [ <code> m <text> ESC [ 0 m`
with the standard ANSI foreground codes.  `purple()` is the crate's alias
for magenta (code 35). -/

def colorWrap (code : String) (s : String) : String :=
  "\x1b[" ++ code ++ "m" ++ s ++ "\x1b[0m"

def cyan (s : String) : String := colorWrap "36" s
def green (s : String) : String := colorWrap "32" s
def yellow (s : String) : String := colorWrap "33" s
def red (s : String) : String := colorWrap "31" s
def blue (s : String) : String := colorWrap "34" s
def magenta (s : String) : String := colorWrap "35" s
def purple (s : String) : String := colorWrap "35" s

/-! ### Decimal rendering of natural numbers

Used for the call-site line/column numbers and the timestamp fields. -/

def digitChar (n : Nat) : Char :=
  match n with
  | 0 => '0' | 1 => '1' | 2 => '2' | 3 => '3' | 4 => '4'
  | 5 => '5' | 6 => '6' | 7 => '7' | 8 => '8' | _ => '9'

def natDecCore : Nat → Nat → List Char → List Char
  | 0, _, acc => acc
  | fuel + 1, n, acc =>
    if n < 10 then digitChar n :: acc
    else natDecCore fuel (n / 10) (digitChar (n % 10) :: acc)

def natDec (n : Nat) : String := ⟨natDecCore (n + 1) n []⟩

/-! ### Model of the `chrono` timestamp

`Local::now().format("%Y-%m-%d %H:%M:%S%.3f")` renders the local wall-clock
time as `YYYY-MM-DD HH:MM:SS.mmm` with zero-padded fields. -/

structure Timestamp where
  year : Nat
  month : Nat
  day : Nat
  hour : Nat
  minute : Nat
  second : Nat
  millis : Nat

def pad2 (n : Nat) : String := if n < 10 then "0" ++ natDec n else natDec n

def pad3 (n : Nat) : String :=
  if n < 10 then "00" ++ natDec n
  else if n < 100 then "0" ++ natDec n
  else natDec n

def pad4 (n : Nat) : String :=
  if n < 10 then "000" ++ natDec n
  else if n < 100 then "00" ++ natDec n
  else if n < 1000 then "0" ++ natDec n
  else natDec n

def formatTimestamp (t : Timestamp) : String :=
  pad4 t.year ++ "-" ++ pad2 t.month ++ "-" ++ pad2 t.day ++ " " ++
  pad2 t.hour ++ ":" ++ pad2 t.minute ++ ":" ++ pad2 t.second ++ "." ++ pad3 t.millis

/-! ### Model of the `log` crate's levels and the level filter

`log` orders levels `Error = 1 < Warn < Info < Debug < Trace = 5` (larger
means more verbose) and a record passes a `LevelFilter` iff its level's
number is at most the filter's number. -/

inductive Level where
  | Error | Warn | Info | Debug | Trace
deriving DecidableEq, Repr

def Level.toNat : Level → Nat
  | .Error => 1 | .Warn => 2 | .Info => 3 | .Debug => 4 | .Trace => 5

inductive LevelFilter where
  | Off | Error | Warn | Info | Debug | Trace
deriving DecidableEq, Repr

def LevelFilter.toNat : LevelFilter → Nat
  | .Off => 0 | .Error => 1 | .Warn => 2 | .Info => 3 | .Debug => 4 | .Trace => 5

def levelEnabled (f : LevelFilter) (l : Level) : Bool :=
  l.toNat ≤ f.toNat

/-! ### Records and the fern format closure -/

structure Record where
  level : Level
  target : String
  message : String

/-- The `match record.level()` arm of the format closure in `init_clogger`. -/
def levelGlyph : Level → String
  | .Info => green "I"
  | .Warn => yellow "W"
  | .Error => red "E"
  | .Debug => blue "D"
  | .Trace => purple "T"

/-- The format closure passed to `Dispatch::format` in `init_clogger`:
`out.finish(format_args!("({}) [{}] [{}] {}", timestamp, level, record.target().magenta(), message))`. -/
def formatRecord (now : Timestamp) (r : Record) : String :=
  "(" ++ cyan (formatTimestamp now) ++ ") [" ++ levelGlyph r.level ++ "] [" ++
  magenta r.target ++ "] " ++ r.message

/-! ### The installed dispatcher and the process state -/

structure LoggerConfig where
  filterLevel : LevelFilter
  logFilePath : String

/-- The configuration `init_clogger` installs: `.level(log::LevelFilter::Debug)`
chained to stdout and to `fern::log_file(log_file_path)`. -/
def cloggerConfig (path : String) : LoggerConfig :=
  { filterLevel := .Debug, logFilePath := path }

/-- Observable process state: the `Once` flag of `init_clogger`, the globally
installed logger (if any), the bytes written to stdout, and the bytes appended
to each file path. -/
structure ProcState where
  initDone : Bool
  logger : Option LoggerConfig
  stdout : String
  files : String → String

/-- Dispatch of one emitted record, as fern performs it: if no global logger
is installed the `log` crate drops the record; otherwise, if the record's
level passes the dispatcher's filter, the formatted line followed by fern's
line separator `"\n"` is written to both chained sinks (stdout and the log
file), and nothing happens otherwise. -/
def dispatchRecord (now : Timestamp) (r : Record) (st : ProcState) : ProcState :=
  match st.logger with
  | none => st
  | some cfg =>
    if levelEnabled cfg.filterLevel r.level then
      let line := formatRecord now r ++ "\n"
      { st with
        stdout := st.stdout ++ line,
        files := fun p => if p = cfg.logFilePath then st.files p ++ line else st.files p }
    else st

/-! ### The emission macros -/

/-- A macro expansion site: `module_path!()` and `std::panic::Location::caller()`. -/
structure CallSite where
  modulePath : String
  file : String
  line : Nat
  column : Nat

/-- `format!("{} ({}:{}^{})", $module, location.file(), location.line(), location.column())`,
the target string every emission macro builds. -/
def mkTarget (moduleName : String) (loc : CallSite) : String :=
  moduleName ++ " (" ++ loc.file ++ ":" ++ natDec loc.line ++ "^" ++ natDec loc.column ++ ")"

/-- Two-argument `c_log!($module, $message)`: emits at `Info`, message untouched. -/
def c_log (moduleName : String) (message : String) (loc : CallSite) : Record :=
  { level := .Info, target := mkTarget moduleName loc, message := message }

/-- Two-argument `c_warn!($module, $message)`: emits at `Warn`, message wrapped
in yellow by `$message.yellow()`. -/
def c_warn (moduleName : String) (message : String) (loc : CallSite) : Record :=
  { level := .Warn, target := mkTarget moduleName loc, message := yellow message }

/-- Two-argument `c_error!($module, $message)`: emits at `Error`, message wrapped
in red by `$message.red()`. -/
def c_error (moduleName : String) (message : String) (loc : CallSite) : Record :=
  { level := .Error, target := mkTarget moduleName loc, message := red message }

/-- Two-argument `c_debug!($module, $message)`: emits at `Debug`, message untouched. -/
def c_debug (moduleName : String) (message : String) (loc : CallSite) : Record :=
  { level := .Debug, target := mkTarget moduleName loc, message := message }

/-- One-argument `c_log!($message)`: defaults the module to `module_path!()`. -/
def c_log1 (message : String) (loc : CallSite) : Record :=
  c_log loc.modulePath message loc

/-- One-argument `c_warn!($message)`. -/
def c_warn1 (message : String) (loc : CallSite) : Record :=
  c_warn loc.modulePath message loc

/-- One-argument `c_error!($message)`. -/
def c_error1 (message : String) (loc : CallSite) : Record :=
  c_error loc.modulePath message loc

/-- One-argument `c_debug1!($message)`. -/
def c_debug1 (message : String) (loc : CallSite) : Record :=
  c_debug loc.modulePath message loc

/-! ### Initialization -/

/-- The call site of the bootstrap `c_log!` inside `init_clogger`. -/
def initLoc : CallSite :=
  { modulePath := "clogger", file := "src/lib.rs", line := 53, column := 9 }

def initMessage : String := "CLogger 初始化完成 (ง •_•)ง"

/-- The two `unwrap()` panics `init_clogger` can hit: `fern::log_file(...).unwrap()`
when the file cannot be opened in append mode, and `base_config.apply().unwrap()`
when a global logger is already installed. -/
inductive PanicReason where
  | fileOpenFailed
  | applyFailed
deriving DecidableEq, Repr

/-- `init_clogger(log_file_path)`.  `openable` is the environment: whether a
path can be opened/created in append mode.  The `Once::call_once` body runs
only when the `Once` has not fired; it builds the dispatch, unwraps the file
sink, unwraps `apply()` (which fails iff a global logger is already
installed), and emits the bootstrap record through the fresh pipeline. -/
def init_clogger (openable : String → Bool) (now : Timestamp) (log_file_path : String)
    (st : ProcState) : Except PanicReason ProcState :=
  if st.initDone then
    Except.ok st
  else if openable log_file_path = false then
    Except.error .fileOpenFailed
  else if st.logger.isSome then
    Except.error .applyFailed
  else
    let st1 : ProcState :=
      { st with initDone := true, logger := some (cloggerConfig log_file_path) }
    Except.ok (dispatchRecord now (c_log1 initMessage initLoc) st1)

/-! ### Traces of operations -/

inductive Op where
  | init (now : Timestamp) (path : String)
  | emit (now : Timestamp) (r : Record)

def runOp (openable : String → Bool) (st : ProcState) : Op → Except PanicReason ProcState
  | .init now path => init_clogger openable now path st
  | .emit now r => Except.ok (dispatchRecord now r st)

def run (openable : String → Bool) : List Op → ProcState → Except PanicReason ProcState
  | [], st => Except.ok st
  | op :: ops, st =>
    match runOp openable st op with
    | .error e => Except.error e
    | .ok st' => run openable ops st'

/-- Sequential emission of a list of timestamped records. -/
def emitAll (st : ProcState) : List (Timestamp × Record) → ProcState
  | [] => st
  | (t, r) :: rest => emitAll (dispatchRecord t r st) rest

def lineOf (t : Timestamp) (r : Record) : String := formatRecord t r ++ "\n"

def concatLines : List (Timestamp × Record) → String
  | [] => ""
  | (t, r) :: rest => lineOf t r ++ concatLines rest

/-! ### Counting physical lines -/

def newlineCount (s : String) : Nat := s.data.count '\n'

def spaceFree (s : String) : Prop := ' ' ∉ s.data

instance (s : String) : Decidable (spaceFree s) := by
  unfold spaceFree; infer_instance

/-- A pristine process: `Once` not fired, no global logger, nothing written. -/
def procInit : ProcState :=
  { initDone := false, logger := none, stdout := "", files := fun _ => "" }

/-- The steady-state invariant after the first successful `init_clogger p`:
the `Once` has fired and the installed global logger is the clogger
dispatcher over `p`. -/
def Inv (p : String) (st : ProcState) : Prop :=
  st.initDone = true ∧ st.logger = some (cloggerConfig p)

/-- `sub` occurs verbatim inside `s`. -/
def containsStr (s sub : String) : Prop := ∃ a b, s = a ++ sub ++ b

/-- Spec-side level glyph, written down from the spec's words: a single
uppercase letter I (Info, green), W (Warn, yellow), E (Error, red),
D (Debug, blue), T (Trace, purple), each wrapped in its level color. -/
def glyphSpec : Level → String
  | .Info => "\x1b[32mI\x1b[0m"
  | .Warn => "\x1b[33mW\x1b[0m"
  | .Error => "\x1b[31mE\x1b[0m"
  | .Debug => "\x1b[34mD\x1b[0m"
  | .Trace => "\x1b[35mT\x1b[0m"

/-- Spec-side rendered line, written down from the spec's words:
`(<timestamp>) [<level-glyph>] [<target>] <message>` with the timestamp in
cyan regardless of level and the target in magenta, verbatim as passed. -/
def formatLineSpec (now : Timestamp) (r : Record) : String :=
  "(" ++ ("\x1b[36m" ++ formatTimestamp now ++ "\x1b[0m") ++ ") [" ++
  glyphSpec r.level ++ "] [" ++ ("\x1b[35m" ++ r.target ++ "\x1b[0m") ++ "] " ++ r.message

/-! ### Concrete fixtures -/

def ts0 : Timestamp :=
  { year := 2024, month := 1, day := 2, hour := 3, minute := 4, second := 5, millis := 6 }

def envAll : String → Bool := fun _ => true

def loc0 : CallSite :=
  { modulePath := "crate::mod_a", file := "src/a.rs", line := 10, column := 5 }

def loc1 : CallSite :=
  { modulePath := "crate::mod_b", file := "src/b.rs", line := 20, column := 7 }

/-- The process state right after a first successful
`init_clogger("/tmp/a.log")` on a pristine process. -/
def afterInit : ProcState :=
  dispatchRecord ts0 (c_log1 initMessage initLoc)
    { procInit with initDone := true, logger := some (cloggerConfig "/tmp/a.log") }

/-! ### Helper lemmas -/

theorem newlineCount_append (a b : String) :
    newlineCount (a ++ b) = newlineCount a + newlineCount b := by
  simp [newlineCount, String.data_append, List.count_append]

theorem digitChar_ne_newline (n : Nat) : digitChar n ≠ '\n' := by
  unfold digitChar; split <;> decide

theorem digitChar_ne_space (n : Nat) : digitChar n ≠ ' ' := by
  unfold digitChar; split <;> decide

theorem mem_natDecCore (fuel : Nat) :
    ∀ (n : Nat) (acc : List Char) (c : Char), c ∈ natDecCore fuel n acc →
      c ∈ acc ∨ ∃ k, c = digitChar k := by
  induction fuel with
  | zero => intro n acc c hc; exact Or.inl hc
  | succ fuel ih =>
    intro n acc c hc
    rw [natDecCore] at hc
    split at hc
    · rcases List.mem_cons.mp hc with h | h
      · exact Or.inr ⟨n, h⟩
      · exact Or.inl h
    · rcases ih (n / 10) _ c hc with h' | h'
      · rcases List.mem_cons.mp h' with h2 | h2
        · exact Or.inr ⟨n % 10, h2⟩
        · exact Or.inl h2
      · exact Or.inr h'

theorem not_mem_natDec_of_ne_digit (n : Nat) (c : Char)
    (hd : ∀ k, c ≠ digitChar k) : c ∉ (natDec n).data := by
  intro hmem
  rcases mem_natDecCore (n + 1) n [] c hmem with h | ⟨k, hk⟩
  · simp at h
  · exact hd k hk

theorem newlineCount_natDec (n : Nat) : newlineCount (natDec n) = 0 := by
  unfold newlineCount
  rw [List.count_eq_zero]
  exact not_mem_natDec_of_ne_digit n '\n' fun k h => digitChar_ne_newline k h.symm

theorem newlineCount_pad2 (n : Nat) : newlineCount (pad2 n) = 0 := by
  unfold pad2
  split <;>
    simp [newlineCount_append, newlineCount_natDec, show newlineCount "0" = 0 from rfl]

theorem newlineCount_pad3 (n : Nat) : newlineCount (pad3 n) = 0 := by
  unfold pad3
  split <;> [skip; split] <;>
    simp [newlineCount_append, newlineCount_natDec, show newlineCount "0" = 0 from rfl,
      show newlineCount "00" = 0 from rfl]

theorem newlineCount_pad4 (n : Nat) : newlineCount (pad4 n) = 0 := by
  unfold pad4
  split <;> [skip; split] <;> [skip; skip; split] <;>
    simp [newlineCount_append, newlineCount_natDec, show newlineCount "0" = 0 from rfl,
      show newlineCount "00" = 0 from rfl, show newlineCount "000" = 0 from rfl]

theorem newlineCount_formatTimestamp (t : Timestamp) :
    newlineCount (formatTimestamp t) = 0 := by
  unfold formatTimestamp
  simp only [newlineCount_append, newlineCount_pad2, newlineCount_pad3, newlineCount_pad4,
    show newlineCount "-" = 0 from rfl, show newlineCount " " = 0 from rfl,
    show newlineCount ":" = 0 from rfl, show newlineCount "." = 0 from rfl]

theorem newlineCount_colorWrap (code s : String) :
    newlineCount (colorWrap code s) = newlineCount code + newlineCount s := by
  unfold colorWrap
  simp only [newlineCount_append, show newlineCount "\x1b[" = 0 from rfl,
    show newlineCount "m" = 0 from rfl, show newlineCount "\x1b[0m" = 0 from rfl]
  omega

theorem newlineCount_levelGlyph (l : Level) : newlineCount (levelGlyph l) = 0 := by
  cases l <;> decide

theorem newlineCount_formatRecord (now : Timestamp) (r : Record) :
    newlineCount (formatRecord now r) = newlineCount r.target + newlineCount r.message := by
  unfold formatRecord cyan magenta
  simp only [newlineCount_append, newlineCount_colorWrap, newlineCount_formatTimestamp,
    newlineCount_levelGlyph, show newlineCount "(" = 0 from rfl,
    show newlineCount "36" = 0 from rfl, show newlineCount ") [" = 0 from rfl,
    show newlineCount "] [" = 0 from rfl, show newlineCount "35" = 0 from rfl,
    show newlineCount "] " = 0 from rfl]
  omega

theorem newlineCount_lineOf (t : Timestamp) (r : Record) :
    newlineCount (lineOf t r) = newlineCount r.target + newlineCount r.message + 1 := by
  unfold lineOf
  rw [newlineCount_append, newlineCount_formatRecord,
    show newlineCount "\n" = 1 from rfl]

theorem newlineCount_mkTarget (m : String) (loc : CallSite) :
    newlineCount (mkTarget m loc) = newlineCount m + newlineCount loc.file := by
  unfold mkTarget
  simp only [newlineCount_append, newlineCount_natDec,
    show newlineCount " (" = 0 from rfl, show newlineCount ":" = 0 from rfl,
    show newlineCount "^" = 0 from rfl, show newlineCount ")" = 0 from rfl]
  omega

theorem newlineCount_yellow (s : String) : newlineCount (yellow s) = newlineCount s := by
  unfold yellow
  rw [newlineCount_colorWrap, show newlineCount "33" = 0 from rfl, Nat.zero_add]

theorem newlineCount_red (s : String) : newlineCount (red s) = newlineCount s := by
  unfold red
  rw [newlineCount_colorWrap, show newlineCount "31" = 0 from rfl, Nat.zero_add]

theorem dispatchRecord_logger (now : Timestamp) (r : Record) (st : ProcState) :
    (dispatchRecord now r st).logger = st.logger := by
  unfold dispatchRecord
  cases h : st.logger with
  | none => exact h
  | some cfg =>
    by_cases he : levelEnabled cfg.filterLevel r.level = true <;> simp [he, h]

theorem dispatchRecord_initDone (now : Timestamp) (r : Record) (st : ProcState) :
    (dispatchRecord now r st).initDone = st.initDone := by
  unfold dispatchRecord
  cases h : st.logger with
  | none => rfl
  | some cfg =>
    by_cases he : levelEnabled cfg.filterLevel r.level = true <;> simp [he, h]

theorem dispatchRecord_of_none (now : Timestamp) (r : Record) (st : ProcState)
    (h : st.logger = none) : dispatchRecord now r st = st := by
  unfold dispatchRecord
  rw [h]

theorem dispatchRecord_stdout_enabled (now : Timestamp) (r : Record) (st : ProcState)
    (cfg : LoggerConfig) (h : st.logger = some cfg)
    (he : levelEnabled cfg.filterLevel r.level = true) :
    (dispatchRecord now r st).stdout = st.stdout ++ lineOf now r := by
  unfold dispatchRecord
  rw [h]
  simp [he, lineOf]

theorem dispatchRecord_files_self (now : Timestamp) (r : Record) (st : ProcState)
    (cfg : LoggerConfig) (h : st.logger = some cfg)
    (he : levelEnabled cfg.filterLevel r.level = true) :
    (dispatchRecord now r st).files cfg.logFilePath =
      st.files cfg.logFilePath ++ lineOf now r := by
  unfold dispatchRecord
  rw [h]
  simp [he, lineOf]

theorem dispatchRecord_files_other (now : Timestamp) (r : Record) (st : ProcState)
    (cfg : LoggerConfig) (h : st.logger = some cfg) (q : String)
    (hq : q ≠ cfg.logFilePath) :
    (dispatchRecord now r st).files q = st.files q := by
  unfold dispatchRecord
  rw [h]
  by_cases he : levelEnabled cfg.filterLevel r.level = true <;> simp [he, hq]

theorem dispatchRecord_disabled (now : Timestamp) (r : Record) (st : ProcState)
    (cfg : LoggerConfig) (h : st.logger = some cfg)
    (he : levelEnabled cfg.filterLevel r.level = false) :
    dispatchRecord now r st = st := by
  unfold dispatchRecord
  rw [h]
  simp [he]

theorem init_clogger_done (openable : String → Bool) (now : Timestamp) (p : String)
    (st : ProcState) (h : st.initDone = true) :
    init_clogger openable now p st = Except.ok st := by
  simp [init_clogger, h]

theorem init_clogger_first (openable : String → Bool) (now : Timestamp) (p : String)
    (st : ProcState) (h : st.initDone = false) (hp : openable p = true)
    (hl : st.logger = none) :
    init_clogger openable now p st =
      Except.ok (dispatchRecord now (c_log1 initMessage initLoc)
        { st with initDone := true, logger := some (cloggerConfig p) }) := by
  simp [init_clogger, h, hp, hl]

theorem runOp_preserves (openable : String → Bool) (p : String) (st : ProcState)
    (op : Op) (hInv : Inv p st) :
    ∃ st', runOp openable st op = Except.ok st' ∧ Inv p st' ∧
      ∀ q, q ≠ p → st'.files q = st.files q := by
  cases op with
  | init now path =>
    exact ⟨st, by simp [runOp, init_clogger_done openable now path st hInv.1],
      hInv, fun q _ => rfl⟩
  | emit now r =>
    refine ⟨dispatchRecord now r st, rfl, ⟨?_, ?_⟩, ?_⟩
    · rw [dispatchRecord_initDone]; exact hInv.1
    · rw [dispatchRecord_logger]; exact hInv.2
    · intro q hq
      exact dispatchRecord_files_other now r st (cloggerConfig p) hInv.2 q hq

theorem run_preserves (openable : String → Bool) (p : String) (ops : List Op) :
    ∀ st stF, Inv p st → run openable ops st = Except.ok stF →
      Inv p stF ∧ ∀ q, q ≠ p → stF.files q = st.files q := by
  induction ops with
  | nil =>
    intro st stF h hr
    simp only [run, Except.ok.injEq] at hr
    subst hr
    exact ⟨h, fun q _ => rfl⟩
  | cons op ops ih =>
    intro st stF h hr
    obtain ⟨st', hop, hInv', hfiles⟩ := runOp_preserves openable p st op h
    rw [run, hop] at hr
    obtain ⟨hI, hf⟩ := ih st' stF hInv' hr
    exact ⟨hI, fun q hq => (hf q hq).trans (hfiles q hq)⟩

/-! ### Substring containment -/

theorem containsStr_trans (s t u : String) (h1 : containsStr s t)
    (h2 : containsStr t u) : containsStr s u := by
  obtain ⟨a, b, hab⟩ := h1
  obtain ⟨c, d, hcd⟩ := h2
  exact ⟨a ++ c, d ++ b, by rw [hab, hcd]; simp [String.append_assoc]⟩

theorem containsStr_yellow (s : String) : containsStr (yellow s) s :=
  ⟨"\x1b[" ++ "33" ++ "m", "\x1b[0m", by simp [yellow, colorWrap, String.append_assoc]⟩

theorem containsStr_red (s : String) : containsStr (red s) s :=
  ⟨"\x1b[" ++ "31" ++ "m", "\x1b[0m", by simp [red, colorWrap, String.append_assoc]⟩

theorem lineOf_contains_message (t : Timestamp) (r : Record) :
    containsStr (lineOf t r) r.message :=
  ⟨"(" ++ cyan (formatTimestamp t) ++ ") [" ++ levelGlyph r.level ++ "] [" ++
      magenta r.target ++ "] ", "\n",
    by simp [lineOf, formatRecord, String.append_assoc]⟩

theorem lineOf_contains_glyph (t : Timestamp) (r : Record) :
    containsStr (lineOf t r) (levelGlyph r.level) :=
  ⟨"(" ++ cyan (formatTimestamp t) ++ ") [",
    "] [" ++ magenta r.target ++ "] " ++ r.message ++ "\n",
    by simp [lineOf, formatRecord, String.append_assoc]⟩

/-! ### Sequential emission -/

theorem emitAll_files (p : String) (rs : List (Timestamp × Record)) :
    ∀ st : ProcState, st.logger = some (cloggerConfig p) →
      (∀ x ∈ rs, levelEnabled LevelFilter.Debug x.2.level = true) →
      (emitAll st rs).files p = st.files p ++ concatLines rs := by
  induction rs with
  | nil => intro st _ _; simp [emitAll, concatLines]
  | cons x rest ih =>
    intro st hlog hall
    obtain ⟨t, r⟩ := x
    have he : levelEnabled (cloggerConfig p).filterLevel r.level = true :=
      hall (t, r) (List.mem_cons_self _ _)
    have hlog' : (dispatchRecord t r st).logger = some (cloggerConfig p) := by
      rw [dispatchRecord_logger]; exact hlog
    have hstep := dispatchRecord_files_self t r st _ hlog he
    simp only [show (cloggerConfig p).logFilePath = p from rfl] at hstep
    rw [emitAll, ih _ hlog' (fun y hy => hall y (List.mem_cons_of_mem _ hy)), hstep,
      concatLines, String.append_assoc]

theorem newlineCount_concatLines (rs : List (Timestamp × Record))
    (h : ∀ x ∈ rs, newlineCount x.2.target = 0 ∧ newlineCount x.2.message = 0) :
    newlineCount (concatLines rs) = rs.length := by
  induction rs with
  | nil => rfl
  | cons x rest ih =>
    obtain ⟨t, r⟩ := x
    have hx := h (t, r) (List.mem_cons_self _ _)
    rw [concatLines, newlineCount_append, newlineCount_lineOf, hx.1, hx.2,
      ih (fun y hy => h y (List.mem_cons_of_mem _ hy))]
    simp [List.length_cons]
    omega

theorem single_emission (p : String) (st : ProcState) (now : Timestamp) (r : Record)
    (hlog : st.logger = some (cloggerConfig p))
    (hlev : levelEnabled (cloggerConfig p).filterLevel r.level = true)
    (ht : newlineCount r.target = 0) (hm : newlineCount r.message = 0) :
    (dispatchRecord now r st).stdout = st.stdout ++ lineOf now r ∧
    (dispatchRecord now r st).files p = st.files p ++ lineOf now r ∧
    newlineCount (lineOf now r) = 1 := by
  refine ⟨dispatchRecord_stdout_enabled now r st _ hlog hlev, ?_, ?_⟩
  · exact dispatchRecord_files_self now r st _ hlog hlev
  · rw [newlineCount_lineOf, ht, hm]

theorem append_space_cancel (xs : List Char) :
    ∀ (ys t1 t2 : List Char), ' ' ∉ xs → ' ' ∉ ys →
      xs ++ ' ' :: t1 = ys ++ ' ' :: t2 → xs = ys := by
  induction xs with
  | nil =>
    intro ys t1 t2 _ hy h
    cases ys with
    | nil => rfl
    | cons y ys' =>
      simp only [List.nil_append, List.cons_append, List.cons.injEq] at h
      exact absurd (List.mem_cons.mpr (Or.inl h.1)) hy
  | cons x xs' ih =>
    intro ys t1 t2 hx hy h
    cases ys with
    | nil =>
      simp only [List.cons_append, List.nil_append, List.cons.injEq] at h
      exact absurd (List.mem_cons.mpr (Or.inl h.1.symm)) hx
    | cons y ys' =>
      simp only [List.cons_append, List.cons.injEq] at h
      obtain ⟨h1, h2⟩ := h
      subst h1
      rw [ih ys' t1 t2 (fun hm => hx (List.mem_cons_of_mem _ hm))
        (fun hm => hy (List.mem_cons_of_mem _ hm)) h2]

theorem mkTarget_data (m : String) (loc : CallSite) :
    (mkTarget m loc).data = m.data ++ ' ' :: '(' ::
      (loc.file ++ ":" ++ natDec loc.line ++ "^" ++ natDec loc.column ++ ")").data := by
  simp [mkTarget, String.data_append, show (" (" : String).data = [' ', '('] from rfl]

theorem mkTarget_module_inj (m1 m2 : String) (l1 l2 : CallSite)
    (h1 : spaceFree m1) (h2 : spaceFree m2)
    (h : mkTarget m1 l1 = mkTarget m2 l2) : m1 = m2 := by
  have hd := congrArg String.data h
  rw [mkTarget_data, mkTarget_data] at hd
  exact String.ext (append_space_cancel m1.data m2.data _ _ h1 h2 hd)

theorem mkTarget_ne_empty (m : String) (loc : CallSite) : mkTarget m loc ≠ "" := by
  intro h
  have hd := congrArg String.data h
  rw [mkTarget_data] at hd
  simp at hd

/-! ### C1 -/

/-- C1: Initialization is exactly-once and idempotent.  On a pristine process,
after a first successful `init_clogger p` followed by any sequence of further
operations, the installed logger is still the dispatcher over `p` (the first
path remains the active file sink), every file path other than `p` still has
exactly its original content (so a different path passed to a later call never
receives any writes), and any later `init_clogger` call — same or different
path — returns leaving the state untouched. -/
theorem init_exactly_once_first_path_wins
    (openable : String → Bool) (p : String) (now : Timestamp) (ops : List Op)
    (st0 st1 stF : ProcState)
    (h0 : st0.initDone = false) (h1 : st0.logger = none)
    (hfirst : init_clogger openable now p st0 = Except.ok st1)
    (hrun : run openable ops st1 = Except.ok stF) :
    stF.logger = some (cloggerConfig p) ∧
    (∀ q, q ≠ p → stF.files q = st0.files q) ∧
    (∀ q now2, init_clogger openable now2 q stF = Except.ok stF) := by
  by_cases hp : openable p = true
  case neg =>
    have hp' : openable p = false := by revert hp; cases openable p <;> simp
    simp [init_clogger, h0, hp'] at hfirst
  case pos =>
    rw [init_clogger_first openable now p st0 h0 hp h1] at hfirst
    simp only [Except.ok.injEq] at hfirst
    subst hfirst
    have hInv1 : Inv p (dispatchRecord now (c_log1 initMessage initLoc)
        { st0 with initDone := true, logger := some (cloggerConfig p) }) := by
      constructor
      · rw [dispatchRecord_initDone]
      · rw [dispatchRecord_logger]
    obtain ⟨hInvF, hfF⟩ := run_preserves openable p ops _ stF hInv1 hrun
    refine ⟨hInvF.2, ?_, fun q now2 => init_clogger_done openable now2 q stF hInvF.1⟩
    intro q hq
    exact (hfF q hq).trans
      (dispatchRecord_files_other now _ _ (cloggerConfig p) rfl q hq)

/-- Witness for C1 at concrete inputs: a pristine process initialized with
`/tmp/a.log` ends with that dispatcher installed and `/tmp/b.log` untouched. -/
theorem init_exactly_once_witness :
    afterInit.logger = some (cloggerConfig "/tmp/a.log") ∧
    afterInit.files "/tmp/b.log" = "" := by
  obtain ⟨hl, hf, _⟩ := init_exactly_once_first_path_wins envAll "/tmp/a.log" ts0 []
    procInit afterInit afterInit rfl rfl rfl rfl
  exact ⟨hl, hf "/tmp/b.log" (by decide)⟩

/-! ### C2 -/

/-- C2 counterexample: after a successful `init_clogger`, a single `c_log!`
emission whose message contains a newline appends two physical lines to the
log file, not exactly one, so the claim fails as universally stated. -/
theorem one_line_fails_on_newline_message :
    init_clogger envAll ts0 "/tmp/a.log" procInit = Except.ok afterInit ∧
    newlineCount ((dispatchRecord ts0 (c_log "m" "a\nb" loc0) afterInit).files "/tmp/a.log") ≠
      newlineCount (afterInit.files "/tmp/a.log") + 1 := by
  exact ⟨rfl, by decide⟩

/-- C2 (amended): after a successful `init_clogger p`, a single emission of
any of the four helpers with a newline-free message (and newline-free module
and file tags) appends exactly one line to stdout and exactly one line to the
log file, both consisting of that record's formatted line, which contains the
message verbatim and the level glyph; and emitting N records sequentially
appends their N formatted lines to the file in exactly the emission order. -/
theorem emission_lines_and_order
    (p : String) (st : ProcState) (hlog : st.logger = some (cloggerConfig p)) :
    (∀ (now : Timestamp) (m msg : String) (loc : CallSite),
      newlineCount msg = 0 → newlineCount m = 0 → newlineCount loc.file = 0 →
      ∀ r ∈ [c_log m msg loc, c_warn m msg loc, c_error m msg loc, c_debug m msg loc],
        (dispatchRecord now r st).stdout = st.stdout ++ lineOf now r ∧
        (dispatchRecord now r st).files p = st.files p ++ lineOf now r ∧
        newlineCount (lineOf now r) = 1 ∧
        containsStr (lineOf now r) msg ∧
        containsStr (lineOf now r) (levelGlyph r.level)) ∧
    (∀ rs : List (Timestamp × Record),
      (∀ x ∈ rs, levelEnabled LevelFilter.Debug x.2.level = true) →
      (emitAll st rs).files p = st.files p ++ concatLines rs ∧
      ((∀ x ∈ rs, newlineCount x.2.target = 0 ∧ newlineCount x.2.message = 0) →
        newlineCount (concatLines rs) = rs.length)) := by
  constructor
  · intro now m msg loc hmsg hm hfile r hr
    have htgt : newlineCount (mkTarget m loc) = 0 := by
      rw [newlineCount_mkTarget, hm, hfile]
    fin_cases hr
    · have hs := single_emission p st now (c_log m msg loc) hlog rfl htgt hmsg
      exact ⟨hs.1, hs.2.1, hs.2.2, lineOf_contains_message now _, lineOf_contains_glyph now _⟩
    · have hs := single_emission p st now (c_warn m msg loc) hlog rfl htgt
        (by rw [show (c_warn m msg loc).message = yellow msg from rfl, newlineCount_yellow, hmsg])
      exact ⟨hs.1, hs.2.1, hs.2.2,
        containsStr_trans _ _ _ (lineOf_contains_message now _) (containsStr_yellow msg),
        lineOf_contains_glyph now _⟩
    · have hs := single_emission p st now (c_error m msg loc) hlog rfl htgt
        (by rw [show (c_error m msg loc).message = red msg from rfl, newlineCount_red, hmsg])
      exact ⟨hs.1, hs.2.1, hs.2.2,
        containsStr_trans _ _ _ (lineOf_contains_message now _) (containsStr_red msg),
        lineOf_contains_glyph now _⟩
    · have hs := single_emission p st now (c_debug m msg loc) hlog rfl htgt hmsg
      exact ⟨hs.1, hs.2.1, hs.2.2, lineOf_contains_message now _, lineOf_contains_glyph now _⟩
  · exact fun rs hall =>
      ⟨emitAll_files p rs st hlog hall, fun hc => newlineCount_concatLines rs hc⟩

/-- Witness for C2 (amended) at concrete inputs. -/
theorem emission_lines_witness :
    (dispatchRecord ts0 (c_log "m" "hello" loc0) afterInit).files "/tmp/a.log" =
      afterInit.files "/tmp/a.log" ++ lineOf ts0 (c_log "m" "hello" loc0) := by
  have h := (emission_lines_and_order "/tmp/a.log" afterInit rfl).1 ts0 "m" "hello" loc0
    (by decide) (by decide) (by decide) (c_log "m" "hello" loc0) (by simp)
  exact h.2.1

/-! ### C3 -/

/-- C3: for every record the formatter renders exactly
`(<timestamp>) [<level-glyph>] [<target>] <message>` with the timestamp
(rendered `YYYY-MM-DD HH:MM:SS.mmm`) in cyan regardless of level, the
level glyph the single colored uppercase letter I/W/E/D/T, and the target in
magenta, verbatim: the source formatter coincides with the spec-side line. -/
theorem format_line_shape (now : Timestamp) (r : Record) :
    formatRecord now r = formatLineSpec now r := by
  obtain ⟨level, target, message⟩ := r
  cases level <;> rfl

/-! ### C4 -/

/-- C4 counterexample: the claim says Trace is suppressed only "by convention
of never being emitted by the helpers, not by the filter itself".  In fact
`LevelFilter::Debug` itself rejects Trace: a Trace record emitted against the
installed dispatcher is blocked by the filter and reaches neither sink. -/
theorem trace_blocked_by_filter_itself :
    levelEnabled LevelFilter.Debug Level.Trace = false ∧
    dispatchRecord ts0 { level := Level.Trace, target := "t", message := "m" } afterInit =
      afterInit := by
  exact ⟨rfl, dispatchRecord_disabled ts0 _ afterInit (cloggerConfig "/tmp/a.log") rfl rfl⟩

/-- C4 (amended): the severity filter is fixed at Debug: with the clogger
dispatcher installed, every record of level Debug, Info, Warn or Error
reaches both sinks, and no Trace record reaches either sink — blocked by the
filter itself, which allows Debug and above but not Trace; additionally the
four helpers never construct a Trace record. -/
theorem filter_debug_behavior (p : String) (st : ProcState) (now : Timestamp)
    (hlog : st.logger = some (cloggerConfig p)) :
    (cloggerConfig p).filterLevel = LevelFilter.Debug ∧
    (∀ r : Record,
      (r.level = Level.Debug ∨ r.level = Level.Info ∨ r.level = Level.Warn ∨
        r.level = Level.Error) →
      (dispatchRecord now r st).stdout = st.stdout ++ lineOf now r ∧
      (dispatchRecord now r st).files p = st.files p ++ lineOf now r) ∧
    (∀ r : Record, r.level = Level.Trace → dispatchRecord now r st = st) ∧
    (∀ m msg loc,
      (c_log m msg loc).level ≠ Level.Trace ∧ (c_warn m msg loc).level ≠ Level.Trace ∧
      (c_error m msg loc).level ≠ Level.Trace ∧ (c_debug m msg loc).level ≠ Level.Trace) := by
  refine ⟨rfl, ?_, ?_, ?_⟩
  · intro r hr
    have hlev : levelEnabled (cloggerConfig p).filterLevel r.level = true := by
      rcases hr with h | h | h | h <;> rw [h] <;> rfl
    exact ⟨dispatchRecord_stdout_enabled now r st _ hlog hlev,
      dispatchRecord_files_self now r st _ hlog hlev⟩
  · intro r hr
    refine dispatchRecord_disabled now r st _ hlog ?_
    rw [hr]
    rfl
  · intro m msg loc
    refine ⟨?_, ?_, ?_, ?_⟩ <;> intro h <;> exact Level.noConfusion h

/-- Witness for C4 (amended) at concrete inputs. -/
theorem filter_debug_witness :
    (dispatchRecord ts0 (c_debug "m" "x" loc0) afterInit).stdout =
      afterInit.stdout ++ lineOf ts0 (c_debug "m" "x" loc0) := by
  exact ((filter_debug_behavior "/tmp/a.log" afterInit ts0 rfl).2.1
    (c_debug "m" "x" loc0) (Or.inl rfl)).1

/-! ### C5 -/

/-- C5: the first call to `init_clogger` (the `Once` not yet fired) panics —
returns one of the two `unwrap` panic reasons — if and only if the file at
`log_file_path` cannot be opened in append mode or a global logger is already
installed by a different mechanism; there is no non-fatal error return. -/
theorem init_failure_iff (openable : String → Bool) (now : Timestamp) (p : String)
    (st : ProcState) (h0 : st.initDone = false) :
    (∃ e, init_clogger openable now p st = Except.error e) ↔
      (openable p = false ∨ st.logger.isSome = true) := by
  constructor
  · rintro ⟨e, he⟩
    by_cases hp : openable p = false
    · exact Or.inl hp
    · have hp' : openable p = true := by revert hp; cases openable p <;> simp
      by_cases hl : st.logger.isSome = true
      · exact Or.inr hl
      · have hl' : st.logger = none := by
          revert hl; cases st.logger <;> simp
        rw [init_clogger_first openable now p st h0 hp' hl'] at he
        exact Except.noConfusion he
  · rintro (hp | hl)
    · exact ⟨.fileOpenFailed, by simp [init_clogger, h0, hp]⟩
    · cases h : openable p with
      | false => exact ⟨.fileOpenFailed, by simp [init_clogger, h0, h]⟩
      | true => exact ⟨.applyFailed, by simp [init_clogger, h0, h, hl]⟩

/-- Witness for C5 at concrete inputs: with an unopenable path, the first
call fails with a panic. -/
theorem init_failure_witness :
    ∃ e, init_clogger (fun _ => false) ts0 "/tmp/a.log" procInit = Except.error e := by
  exact (init_failure_iff (fun _ => false) ts0 "/tmp/a.log" procInit rfl).mpr (Or.inl rfl)

/-! ### C7 -/

/-- C7: message coloring is applied by the emission helper, not the formatter:
`c_warn!` emits the message wrapped in yellow and `c_error!` wrapped in red,
while `c_log!` and `c_debug!` emit it untouched; and the formatter appends the
record's message field verbatim (uncolored) after a message-independent head. -/
theorem message_coloring_by_helpers :
    (∀ m msg loc, (c_warn m msg loc).message = "\x1b[33m" ++ msg ++ "\x1b[0m") ∧
    (∀ m msg loc, (c_error m msg loc).message = "\x1b[31m" ++ msg ++ "\x1b[0m") ∧
    (∀ m msg loc, (c_log m msg loc).message = msg) ∧
    (∀ m msg loc, (c_debug m msg loc).message = msg) ∧
    (∀ (now : Timestamp) (lvl : Level) (tgt msg : String),
      formatRecord now { level := lvl, target := tgt, message := msg } =
        formatRecord now { level := lvl, target := tgt, message := "" } ++ msg) := by
  refine ⟨fun m msg loc => rfl, fun m msg loc => rfl, fun m msg loc => rfl,
    fun m msg loc => rfl, fun now lvl tgt msg => ?_⟩
  simp [formatRecord, String.append_assoc]

/-! ### C6 -/

/-- C6: every helper's record target is `<module> (<file>:<line>^<column>)`
with the location captured at the call site; the one-argument forms default
the module to the call site's `module_path!()`, yielding a non-empty target
that is distinct for two call sites whose (space-free, as Rust module paths
are) module paths differ; a provided module argument is used verbatim as the
prefix of the target. -/
theorem target_format_and_inference :
    (∀ m msg loc,
      (c_log m msg loc).target =
        m ++ " (" ++ loc.file ++ ":" ++ natDec loc.line ++ "^" ++ natDec loc.column ++ ")" ∧
      (c_warn m msg loc).target = (c_log m msg loc).target ∧
      (c_error m msg loc).target = (c_log m msg loc).target ∧
      (c_debug m msg loc).target = (c_log m msg loc).target) ∧
    (∀ msg loc,
      (c_log1 msg loc).target = mkTarget loc.modulePath loc ∧
      (c_warn1 msg loc).target = mkTarget loc.modulePath loc ∧
      (c_error1 msg loc).target = mkTarget loc.modulePath loc ∧
      (c_debug1 msg loc).target = mkTarget loc.modulePath loc) ∧
    (∀ msg loc, (c_log1 msg loc).target ≠ "") ∧
    (∀ msg1 msg2 loc1 loc2, spaceFree loc1.modulePath → spaceFree loc2.modulePath →
      loc1.modulePath ≠ loc2.modulePath →
      (c_log1 msg1 loc1).target ≠ (c_log1 msg2 loc2).target) := by
  refine ⟨fun m msg loc => ⟨rfl, rfl, rfl, rfl⟩,
    fun msg loc => ⟨rfl, rfl, rfl, rfl⟩,
    fun msg loc => mkTarget_ne_empty loc.modulePath loc, ?_⟩
  intro msg1 msg2 lc1 lc2 hs1 hs2 hne h
  exact hne (mkTarget_module_inj lc1.modulePath lc2.modulePath lc1 lc2 hs1 hs2 h)

/-- Witness for C6 at concrete inputs: two call sites in different modules
yield distinct inferred targets. -/
theorem target_inference_witness :
    (c_log1 "x" loc0).target ≠ (c_log1 "y" loc1).target := by
  exact target_format_and_inference.2.2.2 "x" "y" loc0 loc1 (by decide) (by decide)
    (by decide)

/-! ### C8 -/

/-- C8: for every record that passes the filter, the identical byte sequence
— the formatted line with its ANSI escape sequences, e.g. the cyan timestamp
escape, written verbatim with no stripping — is appended to stdout and to the
log file, and no other file is touched: there is no per-sink difference. -/
theorem identical_bytes_both_sinks (now : Timestamp) (r : Record) (st : ProcState)
    (cfg : LoggerConfig) (h : st.logger = some cfg)
    (he : levelEnabled cfg.filterLevel r.level = true) :
    ∃ chunk,
      (dispatchRecord now r st).stdout = st.stdout ++ chunk ∧
      (dispatchRecord now r st).files cfg.logFilePath =
        st.files cfg.logFilePath ++ chunk ∧
      chunk = formatRecord now r ++ "\n" ∧
      containsStr chunk ("\x1b[36m" ++ formatTimestamp now ++ "\x1b[0m") ∧
      (∀ q, q ≠ cfg.logFilePath → (dispatchRecord now r st).files q = st.files q) := by
  refine ⟨lineOf now r, dispatchRecord_stdout_enabled now r st cfg h he,
    dispatchRecord_files_self now r st cfg h he, rfl, ?_,
    fun q hq => dispatchRecord_files_other now r st cfg h q hq⟩
  refine ⟨"(", ") [" ++ levelGlyph r.level ++ "] [" ++ magenta r.target ++ "] " ++
    r.message ++ "\n", ?_⟩
  simp only [lineOf, formatRecord, cyan, colorWrap, String.append_assoc]
  rfl

/-- Witness for C8 at concrete inputs. -/
theorem identical_bytes_witness :
    (dispatchRecord ts0 (c_log "m" "hi" loc0) afterInit).stdout =
      afterInit.stdout ++ (formatRecord ts0 (c_log "m" "hi" loc0) ++ "\n") := by
  obtain ⟨c, h1, _, h3, _, _⟩ := identical_bytes_both_sinks ts0 (c_log "m" "hi" loc0)
    afterInit (cloggerConfig "/tmp/a.log") rfl rfl
  rw [h3] at h1
  exact h1

/-! ### C9 -/

/-- C9: with no dispatcher installed (before `init_clogger`), any of the four
helpers — in either arity — emits without panicking: the operation returns
normally and the state, including stdout and every file, is unchanged (the
record is dropped by the `log` crate's no-op default logger). -/
theorem emit_before_init_no_panic (openable : String → Bool) (now : Timestamp)
    (st : ProcState) (h : st.logger = none) (m msg : String) (loc : CallSite) :
    ∀ r ∈ [c_log m msg loc, c_warn m msg loc, c_error m msg loc, c_debug m msg loc,
        c_log1 msg loc, c_warn1 msg loc, c_error1 msg loc, c_debug1 msg loc],
      runOp openable st (Op.emit now r) = Except.ok st := by
  intro r _
  simp [runOp, dispatchRecord_of_none now r st h]

/-- Witness for C9 at concrete inputs: emitting on the pristine process is a
no-op returning success. -/
theorem emit_before_init_witness :
    runOp envAll procInit (Op.emit ts0 (c_log "m" "hello" loc0)) = Except.ok procInit := by
  exact emit_before_init_no_panic envAll ts0 procInit rfl "m" "hello" loc0
    (c_log "m" "hello" loc0) (by simp)

/-! ### C10 -/

/-- C10: with the dispatcher installed, an emission through any of the four
helpers whose module and file tags are newline-free appends, to the file and
to stdout, a record spanning exactly `newlineCount msg + 1` physical lines:
exactly one line when the message is newline-free, and `k + 1` lines when the
message contains `k` newline characters, the message passing through both the
macro and the formatter without newline escaping. -/
theorem lines_per_record_newlines (p : String) (st : ProcState) (now : Timestamp)
    (hlog : st.logger = some (cloggerConfig p)) (m msg : String) (loc : CallSite)
    (hm : newlineCount m = 0) (hf : newlineCount loc.file = 0) :
    ∀ r ∈ [c_log m msg loc, c_warn m msg loc, c_error m msg loc, c_debug m msg loc],
      newlineCount ((dispatchRecord now r st).files p) =
        newlineCount (st.files p) + (newlineCount msg + 1) ∧
      newlineCount ((dispatchRecord now r st).stdout) =
        newlineCount st.stdout + (newlineCount msg + 1) := by
  intro r hr
  have htgt : newlineCount (mkTarget m loc) = 0 := by
    rw [newlineCount_mkTarget, hm, hf]
  have key : ∀ s : Record, s.level ≠ Level.Trace → s.target = mkTarget m loc →
      newlineCount s.message = newlineCount msg →
      newlineCount ((dispatchRecord now s st).files p) =
        newlineCount (st.files p) + (newlineCount msg + 1) ∧
      newlineCount ((dispatchRecord now s st).stdout) =
        newlineCount st.stdout + (newlineCount msg + 1) := by
    intro s hlev htg hmsg
    have he : levelEnabled (cloggerConfig p).filterLevel s.level = true := by
      cases hs : s.level <;> first | rfl | exact absurd hs hlev
    have hfp := dispatchRecord_files_self now s st _ hlog he
    have hso := dispatchRecord_stdout_enabled now s st _ hlog he
    constructor
    · rw [show ((dispatchRecord now s st).files p) =
          st.files p ++ lineOf now s from hfp, newlineCount_append,
        newlineCount_lineOf, htg, htgt, hmsg]
      omega
    · rw [hso, newlineCount_append, newlineCount_lineOf, htg, htgt, hmsg]
      omega
  fin_cases hr
  · exact key _ (fun h => Level.noConfusion h) rfl rfl
  · exact key _ (fun h => Level.noConfusion h) rfl (newlineCount_yellow msg)
  · exact key _ (fun h => Level.noConfusion h) rfl (newlineCount_red msg)
  · exact key _ (fun h => Level.noConfusion h) rfl rfl

/-- Witness for C10 at concrete inputs: a message with one newline produces a
record spanning two physical lines in the file. -/
theorem lines_per_record_witness :
    newlineCount ((dispatchRecord ts0 (c_log "m" "a\nb" loc0) afterInit).files "/tmp/a.log") =
      newlineCount (afterInit.files "/tmp/a.log") + 2 := by
  have h := (lines_per_record_newlines "/tmp/a.log" afterInit ts0 rfl "m" "a\nb" loc0
    (by decide) (by decide) (c_log "m" "a\nb" loc0) (by simp)).1
  rw [show newlineCount "a\nb" + 1 = 2 from rfl] at h
  exact h

end CLogger
